import Mathlib

/-!
# Verification of the container-image-puller controller (`src/main.py`)

Shallow embedding of the image lifecycle controller: the runtime command
gateway (`run_in_host`), the image inventory (`get_used_images`,
`get_all_images`, `get_image_created`, `parse_rfc3339`), the lifecycle
operations (`run_pull`, `run_prune`), the HTTP-facing checks
(`get_allowed_network`, `is_allowed_ip`, the `/pull-image` and
`/prune-images` endpoint bodies), and a small transition system for the
process-wide `image_lock`.

Conventions of the embedding:
* Python exceptions are modelled with `Except PyErr`; a `try/except`
  becomes a `match` on the `Except` value.
* External process behaviour (`subprocess.run`) is an environment
  parameter: for each full command line the environment supplies whether
  the launch fails (OSError/FileNotFoundError), how long the process runs
  (wall-clock seconds) and its exit code / stdout / stderr.
* `json.loads` (Python standard library) is modelled abstractly as an
  environment-supplied function `String → Except Unit JValue`; `.error`
  stands for `json.JSONDecodeError`.
* `datetime` values are records of calendar fields; subtraction of two
  UTC datetimes is modelled exactly in integer microseconds.
-/

set_option autoImplicit false

deriving instance DecidableEq for Except

namespace ImagePuller

mutual
/-- A JSON value, the result of `json.loads`. JSON numbers are modelled as
integers (no claim involves fractional JSON numbers). -/
inductive JValue where
  | null
  | bool (b : Bool)
  | num (n : Int)
  | str (s : String)
  | arr (elems : JArr)
  | obj (fields : JObj)
  deriving DecidableEq
/-- A JSON array, as a bespoke list (mutual with `JValue`). -/
inductive JArr where
  | nil
  | cons (v : JValue) (rest : JArr)
  deriving DecidableEq
/-- A JSON object, as a bespoke association list (mutual with `JValue`);
Python `dict` keys are unique, so first-match lookup models `dict.get`. -/
inductive JObj where
  | nil
  | cons (k : String) (v : JValue) (rest : JObj)
  deriving DecidableEq
end

/-- Build a `JObj` from a list of fields (construction convenience only). -/
def jobjOfList : List (String × JValue) → JObj
  | [] => .nil
  | (k, v) :: rest => .cons k v (jobjOfList rest)

/-- The Python exceptions that the embedded code can raise or dispatch on. -/
inductive PyErr where
  | runtimeError (msg : String)
  | timeoutExpired
  | fileNotFound (msg : String)
  | jsonDecodeError
  | attributeError
  | typeErr
  | valueErr
  deriving DecidableEq, Repr

/-- First-match lookup in a JSON object's field list. -/
def jLookup : JObj → String → Option JValue
  | .nil, _ => none
  | .cons k v rest, key => if k = key then some v else jLookup rest key

/-- Whether a JSON array is empty. -/
def JArr.isNil : JArr → Bool
  | .nil => true
  | .cons _ _ => false

/-- Whether a JSON object is empty. -/
def JObj.isNil : JObj → Bool
  | .nil => true
  | .cons _ _ _ => false

/-- `obj.get(key)`: returns the field if the value is a dict, raises
`AttributeError` otherwise (Python objects other than `dict` have no
`.get`). -/
def jGet (v : JValue) (key : String) : Except PyErr (Option JValue) :=
  match v with
  | .obj fields => .ok (jLookup fields key)
  | _ => .error .attributeError

/-- `obj.get(key, default)`: like `jGet` but substituting a default. -/
def jGetD (v : JValue) (key : String) (dflt : JValue) : Except PyErr JValue :=
  match v with
  | .obj fields => .ok ((jLookup fields key).getD dflt)
  | _ => .error .attributeError

/-- Python truthiness of a JSON value. -/
def jTruthy : JValue → Bool
  | .null => false
  | .bool b => b
  | .num n => n ≠ 0
  | .str s => s ≠ ""
  | .arr elems => ¬ elems.isNil
  | .obj fields => ¬ fields.isNil

/-- Python `set.add` on a list representation of a set. -/
def pySetAdd (s : List JValue) (v : JValue) : List JValue :=
  if v ∈ s then s else s ++ [v]

/-- The structured result of a completed subprocess
(`subprocess.CompletedProcess`). -/
structure CmdResult where
  returncode : Int
  stdout : String
  stderr : String
  deriving DecidableEq, Repr

/-- Environment-supplied behaviour of one subprocess invocation: whether the
launch itself fails (binary missing, chroot failure, …), the wall-clock
duration in seconds the process would run, and its completed result. -/
structure SubprocBehavior where
  launchFails : Bool
  failMsg : String
  duration : Nat
  result : CmdResult
  deriving DecidableEq, Repr

/-- Outcome of `subprocess.run`. -/
inductive SubprocOutcome where
  | completed (r : CmdResult)
  | timedOut
  | launchFailed (msg : String)
  deriving DecidableEq, Repr

/-- `subprocess.run(cmd, check=False, capture_output=True, text=True,
timeout=timeout)`: raises `TimeoutExpired` only when a timeout bound is
passed and the process outlives it; with `timeout=None` the call blocks
until the process exits, however long that takes. -/
def subprocessRun (timeout : Option Nat) (b : SubprocBehavior) : SubprocOutcome :=
  if b.launchFails then .launchFailed b.failMsg
  else
    match timeout with
    | some t => if t < b.duration then .timedOut else .completed b.result
    | none => .completed b.result

/-- The environment a lifecycle operation runs against: host layout flags
probed by `run_in_host`, the measured free disk space, the instant
`datetime.now(timezone.utc)` captured by `run_prune` (in microseconds since
the Unix epoch), the behaviour of every subprocess command line, and the
behaviour of `json.loads`. -/
structure HostEnv where
  inContainer : Bool
  hostNixExists : Bool
  nixBinExists : Bool
  freeBytes : Nat
  nowUs : Int
  subproc : List String → SubprocBehavior
  jsonLoads : String → Except Unit JValue

/-- Binary selection of `run_in_host` (src/main.py lines 242-251): inside a
container the command is chrooted into `/host`, and the crictl path depends
on whether a Nix store is present. -/
def crictlPath (env : HostEnv) : List String :=
  if env.inContainer then
    if env.hostNixExists then
      ["chroot", "/host", "/nix/var/nix/profiles/system/sw/bin/crictl"]
    else
      ["chroot", "/host", "/usr/bin/crictl"]
  else
    if env.nixBinExists then
      ["/nix/var/nix/profiles/system/sw/bin/crictl"]
    else
      ["/usr/bin/crictl"]

/-- `run_in_host` (src/main.py lines 237-262). The `subprocess.run` call
passes no `timeout` argument, hence `timeout = none` here. Every exception
raised by the call (launch failure, and a `TimeoutExpired` if one could
occur) is caught by the surrounding `except Exception` and re-raised as
`RuntimeError`. Non-zero exit codes are returned, not raised. -/
def run_in_host (env : HostEnv) (cmd : List String) : Except PyErr CmdResult :=
  match subprocessRun none (env.subproc (crictlPath env ++ cmd)) with
  | .completed r => .ok r
  | .timedOut => .error (.runtimeError "Command execution failed: timeout")
  | .launchFailed m => .error (.runtimeError ("Command execution failed: " ++ m))

/-! ## String helpers

Structurally recursive equivalents of the Python string operations the
program uses (`split` on a one-character separator, `strip` of ASCII
whitespace, `startswith`), defined on the character list of the string. -/

/-- Split a character list at every occurrence of `c` (Python
`str.split(c)` for a single-character separator, which keeps empty
pieces). -/
def splitCharAux (c : Char) : List Char → List Char → List (List Char)
  | [], acc => [acc.reverse]
  | x :: xs, acc =>
    if x = c then acc.reverse :: splitCharAux c xs []
    else splitCharAux c xs (x :: acc)

/-- Python `s.split(c)` for a one-character separator `c`. -/
def splitOnChar (c : Char) (s : String) : List String :=
  (splitCharAux c s.toList []).map String.mk

/-- ASCII whitespace (Python `str.strip` also strips further Unicode
space characters; none occurs in crictl output). -/
def isPySpace (ch : Char) : Bool :=
  ch = ' ' ∨ ch = '\t' ∨ ch = '\n' ∨ ch = '\r' ∨ ch = '\x0b' ∨ ch = '\x0c'

/-- Python `str.strip()`. -/
def pyStrip (s : String) : String :=
  String.mk (((s.toList.dropWhile isPySpace).reverse.dropWhile isPySpace).reverse)

/-- Python `str.startswith(pre)`. -/
def pyStartsWith (s pre : String) : Bool :=
  pre.toList.isPrefixOf s.toList

/-- Rejoin string pieces with `.` (the effect of Python
`split(".", 1)` keeping every later dot in the second piece). -/
def joinDots : List String → String
  | [] => ""
  | [x] => x
  | x :: xs => x ++ "." ++ joinDots xs

/-! ## Timestamps: `parse_rfc3339` and `datetime` arithmetic -/

/-- A Python `datetime` value: calendar fields plus whether the value is
timezone-aware with `tzinfo=timezone.utc` (the only timezone this program
ever attaches). -/
structure PyDatetime where
  year : Nat
  month : Nat
  day : Nat
  hour : Nat
  minute : Nat
  second : Nat
  microsecond : Nat
  tzUtc : Bool
  deriving DecidableEq, Repr

/-- Gregorian leap year. -/
def isLeap (y : Nat) : Bool := (y % 4 = 0 && y % 100 ≠ 0) || y % 400 = 0

/-- Days in a month of the proleptic Gregorian calendar. -/
def daysInMonth (y m : Nat) : Nat :=
  match m with
  | 1 => 31
  | 2 => if isLeap y then 29 else 28
  | 3 => 31
  | 4 => 30
  | 5 => 31
  | 6 => 30
  | 7 => 31
  | 8 => 31
  | 9 => 30
  | 10 => 31
  | 11 => 30
  | 12 => 31
  | _ => 0

/-- Days in the months of year `y` before month `m`. -/
def daysBeforeMonth (y m : Nat) : Nat :=
  (List.range (m - 1)).foldl (fun acc i => acc + daysInMonth y (i + 1)) 0

/-- Days in all years before year `y` (proleptic Gregorian, year ≥ 1). -/
def daysBeforeYear (y : Nat) : Nat :=
  (y - 1) * 365 + (y - 1) / 4 + (y - 1) / 400 - (y - 1) / 100

/-- Days since 0001-01-01 (same counting as Python `date.toordinal`, but
zero-based). -/
def toOrdinal (y m d : Nat) : Nat :=
  daysBeforeYear y + daysBeforeMonth y m + (d - 1)

/-- Microseconds since the Unix epoch of a UTC datetime; `719162` is the
zero-based ordinal of 1970-01-01. The difference of two such values is
exactly `(a - b).total_seconds()` scaled by `10^6`. -/
def epochUs (dt : PyDatetime) : Int :=
  ((toOrdinal dt.year dt.month dt.day : Int) - 719162) * 86400000000
    + ((dt.hour * 3600 + dt.minute * 60 + dt.second) * 1000000 + dt.microsecond : Nat)

/-- Parse exactly `n` decimal digits, most significant first. -/
def parseNDigits : Nat → List Char → Nat → Option (Nat × List Char)
  | 0, cs, acc => some (acc, cs)
  | _ + 1, [], _ => none
  | n + 1, c :: cs, acc =>
      if c.isDigit then parseNDigits n cs (acc * 10 + (c.toNat - 48)) else none

/-- Parse the time part `HH[:MM[:SS[.fff[fff]]]]` of
`datetime.fromisoformat` (Python 3.10 grammar; no UTC-offset suffix is
modelled — the program strips a trailing `Z` before parsing and attaches
UTC itself). Returns hour, minute, second, microsecond. -/
def parseHMS (cs : List Char) : Option (Nat × Nat × Nat × Nat) :=
  match parseNDigits 2 cs 0 with
  | none => none
  | some (h, r1) =>
    match r1 with
    | [] => some (h, 0, 0, 0)
    | ':' :: r2 =>
      match parseNDigits 2 r2 0 with
      | none => none
      | some (mi, r3) =>
        match r3 with
        | [] => some (h, mi, 0, 0)
        | ':' :: r4 =>
          match parseNDigits 2 r4 0 with
          | none => none
          | some (sec, r5) =>
            match r5 with
            | [] => some (h, mi, sec, 0)
            | '.' :: r6 =>
              match parseNDigits 3 r6 0 with
              | none => none
              | some (f3, r7) =>
                match r7 with
                | [] => some (h, mi, sec, f3 * 1000)
                | _ =>
                  match parseNDigits 3 r7 0 with
                  | none => none
                  | some (f6, r8) =>
                    if r8 = [] then some (h, mi, sec, f3 * 1000 + f6) else none
            | _ => none
        | _ => none
    | _ => none

/-- `datetime.fromisoformat` (Python 3.10 grammar
`YYYY-MM-DD[*HH[:MM[:SS[.fff[fff]]]]]`, any single character as date-time
separator, fractional part of exactly 3 or 6 digits, full calendar
validation, year ≥ 1). Produces a naive datetime (`tzUtc = false`). -/
def pyFromisoformat (s : String) : Option PyDatetime :=
  match parseNDigits 4 s.toList 0 with
  | none => none
  | some (y, r1) =>
    match r1 with
    | '-' :: r2 =>
      match parseNDigits 2 r2 0 with
      | none => none
      | some (mo, r3) =>
        match r3 with
        | '-' :: r4 =>
          match parseNDigits 2 r4 0 with
          | none => none
          | some (d, r5) =>
            let timePart :=
              match r5 with
              | [] => some (0, 0, 0, 0)
              | _ :: r6 => parseHMS r6
            match timePart with
            | none => none
            | some (h, mi, sec, us) =>
              if 1 ≤ y ∧ 1 ≤ mo ∧ mo ≤ 12 ∧ 1 ≤ d ∧ d ≤ daysInMonth y mo
                  ∧ h ≤ 23 ∧ mi ≤ 59 ∧ sec ≤ 59 then
                some ⟨y, mo, d, h, mi, sec, us, false⟩
              else none
        | _ => none
    | _ => none

/-- Python `str.rstrip("Z")`: remove every trailing `Z`. -/
def pyRstripZ (s : String) : String :=
  String.mk ((s.toList.reverse.dropWhile (fun c => c = 'Z')).reverse)

/-- `parse_rfc3339` (src/main.py lines 164-171): trim trailing `Z`s,
normalize the fractional seconds after the first `.` to exactly six digits
(pad with zeros, truncate beyond six), parse with `fromisoformat`, attach
UTC. Python `split(".", 1)` splits at the first dot only, so later dots
stay in the fractional string. A parse failure raises (here: `.error`). -/
def parse_rfc3339 (ts : String) : Except Unit PyDatetime :=
  let t1 := pyRstripZ ts
  let t2 :=
    if t1.toList.contains '.' then
      match splitOnChar '.' t1 with
      | [] => t1
      | base :: fracParts =>
        let frac := joinDots fracParts
        base ++ "." ++ String.mk ((frac ++ "000000").toList.take 6)
    else t1
  match pyFromisoformat t2 with
  | some dt => .ok { dt with tzUtc := true }
  | none => .error ()

/-! ## Image inventory -/

/-- Python `x.strip().splitlines()` as used on crictl output: after
stripping there is no trailing newline, so splitting on `"\n"` agrees with
`splitlines`, and an empty stripped string yields no lines. -/
def pyStripSplitlines (s : String) : List String :=
  let t := pyStrip s
  if t = "" then [] else splitOnChar '\n' t

/-- Lift a `json.loads` outcome into the exception channel
(`json.JSONDecodeError`). -/
def liftJson (r : Except Unit JValue) : Except PyErr JValue :=
  match r with
  | .ok v => .ok v
  | .error _ => .error .jsonDecodeError

/-- The expression `obj.get("status", {}).get("imageRef")` from
`get_used_images` (src/main.py line 195): raises `AttributeError` whenever
a `.get` receiver is not a dict. -/
def extractImageRef (data : JValue) : Except PyErr (Option JValue) :=
  match jGetD data "status" (.obj .nil) with
  | .error e => .error e
  | .ok st => jGet st "imageRef"

/-- The loop of `get_used_images` (src/main.py lines 187-198) over the
container ids: a non-zero `inspect` exit is skipped; otherwise the stdout
is fed to `json.loads` (raising on malformed output — the call is not
inside any `try`), the image reference is extracted (raising
`AttributeError` on non-dict receivers), and truthy references are added
to the set. -/
def collectUsed (env : HostEnv) : List String → List JValue → Except PyErr (List JValue)
  | [], used => .ok used
  | cid :: rest, used =>
    match run_in_host env ["inspect", cid] with
    | .error e => .error e
    | .ok insp =>
      if insp.returncode ≠ 0 then collectUsed env rest used
      else
        match liftJson (env.jsonLoads insp.stdout) with
        | .error e => .error e
        | .ok data =>
          match extractImageRef data with
          | .error e => .error e
          | .ok none => collectUsed env rest used
          | .ok (some ref) =>
            if jTruthy ref then collectUsed env rest (pySetAdd used ref)
            else collectUsed env rest used

/-- `get_used_images` (src/main.py lines 173-200): `ps -a -q`, then inspect
each listed container. A non-zero `ps` exit or an empty id list returns the
empty set. -/
def get_used_images (env : HostEnv) : Except PyErr (List JValue) :=
  match run_in_host env ["ps", "-a", "-q"] with
  | .error e => .error e
  | .ok ps =>
    if ps.returncode ≠ 0 then .ok []
    else
      let ids := pyStripSplitlines ps.stdout
      if ids.isEmpty then .ok []
      else collectUsed env ids []

/-- `get_all_images` (src/main.py lines 202-210): `images -q`; non-zero
exit yields the empty list. -/
def get_all_images (env : HostEnv) : Except PyErr (List String) :=
  match run_in_host env ["images", "-q"] with
  | .error e => .error e
  | .ok img =>
    if img.returncode ≠ 0 then .ok []
    else .ok (pyStripSplitlines img.stdout)

/-- The expression
`data.get("info", {}).get("imageSpec", {}).get("created")` from
`get_image_created` (src/main.py lines 225-229); it sits outside every
`try`, so an `AttributeError` from a non-dict receiver propagates. -/
def extractCreated (data : JValue) : Except PyErr (Option JValue) :=
  match jGetD data "info" (.obj .nil) with
  | .error e => .error e
  | .ok info =>
    match jGetD info "imageSpec" (.obj .nil) with
    | .error e => .error e
    | .ok ispec => jGet ispec "created"

/-- `get_image_created` (src/main.py lines 212-235): inspect the image; a
non-zero exit returns `None`; `json.loads` failures are caught and return
`None`; a falsy `created` value returns `None`; `parse_rfc3339` is called
inside `try ... except Exception`, so both an unparsable string and a
non-string value (whose `.rstrip` raises) return `None`. Only the
launch-failure `RuntimeError` of the gateway and the `AttributeError` of
`extractCreated` escape. -/
def get_image_created (env : HostEnv) (imgId : String) : Except PyErr (Option PyDatetime) :=
  match run_in_host env ["inspecti", imgId] with
  | .error e => .error e
  | .ok insp =>
    if insp.returncode ≠ 0 then .ok none
    else
      match env.jsonLoads insp.stdout with
      | .error _ => .ok none
      | .ok data =>
        match extractCreated data with
        | .error e => .error e
        | .ok none => .ok none
        | .ok (some created) =>
          if jTruthy created then
            match created with
            | .str s =>
              match parse_rfc3339 s with
              | .ok dt => .ok (some dt)
              | .error _ => .ok none
            | _ => .ok none
          else .ok none

/-! ## Lifecycle operations -/

/-- What happened to one image during a prune pass. -/
inductive PruneAction where
  | keptUnknownCreated
  | keptTooNew
  | keptInUse
  | removed
  | removeFailed
  deriving DecidableEq, Repr

/-- Per-image record of a prune pass: the image id, what was decided, and
the `rmi` gateway commands issued for it. -/
structure PruneEntry where
  img : String
  act : PruneAction
  rmiCmds : List (List String)
  deriving DecidableEq, Repr

/-- One iteration of the `run_prune` loop (src/main.py lines 283-306) for
image `img`. `cutoffUs` is `days * 24 * 60 * 60` seconds expressed in
microseconds; comparing the age in microseconds against it is exactly the
source's float comparison `age_seconds < cutoff_seconds`. A `datetime` is
always truthy, so `if not created_dt` is the `None` test. -/
def pruneOne (env : HostEnv) (cutoffUs : Int) (used : List JValue) (img : String) :
    Except PyErr PruneEntry :=
  match get_image_created env img with
  | .error e => .error e
  | .ok none => .ok ⟨img, .keptUnknownCreated, []⟩
  | .ok (some c) =>
    if env.nowUs - epochUs c < cutoffUs then .ok ⟨img, .keptTooNew, []⟩
    else if JValue.str img ∈ used then .ok ⟨img, .keptInUse, []⟩
    else
      match run_in_host env ["rmi", img] with
      | .error e => .error e
      | .ok r =>
        .ok ⟨img, if r.returncode = 0 then .removed else .removeFailed, [["rmi", img]]⟩

/-- The `for img in all_images` loop of `run_prune`, in order. -/
def pruneAll (env : HostEnv) (cutoffUs : Int) (used : List JValue) :
    List String → Except PyErr (List PruneEntry)
  | [] => .ok []
  | img :: rest =>
    match pruneOne env cutoffUs used img with
    | .error e => .error e
    | .ok entry =>
      match pruneAll env cutoffUs used rest with
      | .error e => .error e
      | .ok entries => .ok (entry :: entries)

/-- `run_prune` (src/main.py lines 264-308), the body inside
`with image_lock`: capture `now` once (`env.nowUs`), compute the cutoff,
build the used set, list all images, and process each image in turn. The
summary counters of the source are derivable from the returned entries. -/
def run_prune (env : HostEnv) (days : Int) : Except PyErr (List PruneEntry) :=
  match get_used_images env with
  | .error e => .error e
  | .ok used =>
    match get_all_images env with
    | .error e => .error e
    | .ok allImgs => pruneAll env (days * 24 * 60 * 60 * 1000000) used allImgs

/-- Terminal outcome of one `run_pull` invocation, matching the logging
branches of src/main.py lines 137-154. -/
inductive PullOutcome where
  | success (created : Option PyDatetime)
  | pullFailed (code : Int)
  | insufficientStorage
  | timedOut
  | binaryNotFound
  | unexpected
  deriving DecidableEq, Repr

/-- `run_pull` (src/main.py lines 128-155), the body inside
`with image_lock`, paired with the gateway commands it issues. The guard
`shutil.disk_usage(path).free / (1024 ** 3) > 50` is the exact comparison
`freeBytes > 50 · 2^30` (float division by `2^30` is exact for every size
below `2^53` bytes). The `except subprocess.TimeoutExpired` and
`except FileNotFoundError` handlers are modelled by dispatching on the
error value; `run_in_host` only ever raises `RuntimeError`, which lands in
`except Exception`. -/
def run_pull (env : HostEnv) (image : String) : PullOutcome × List (List String) :=
  if 50 * 1024 ^ 3 < env.freeBytes then
    match run_in_host env ["pull", image] with
    | .ok r =>
      if r.returncode = 0 then
        match get_image_created env image with
        | .ok c => (.success c, [["pull", image], ["inspecti", image]])
        | .error .timeoutExpired => (.timedOut, [["pull", image], ["inspecti", image]])
        | .error (.fileNotFound _) => (.binaryNotFound, [["pull", image], ["inspecti", image]])
        | .error _ => (.unexpected, [["pull", image], ["inspecti", image]])
      else (.pullFailed r.returncode, [["pull", image]])
    | .error .timeoutExpired => (.timedOut, [["pull", image]])
    | .error (.fileNotFound _) => (.binaryNotFound, [["pull", image]])
    | .error _ => (.unexpected, [["pull", image]])
  else (.insufficientStorage, [])

/-! ## Authorization: `get_allowed_network` / `is_allowed_ip`

The Python `ipaddress` standard library is modelled for IPv4 (the
configured default `"0.0.0.0/1"` and every address in the claims are
IPv4; theorems about unparsable strings carry a no-colon hypothesis since
every textual IPv6 form contains a colon). Netmask-style suffixes such as
`/255.0.0.0` are not modelled; prefix lengths are decimal. -/

/-- All characters are ASCII decimal digits. -/
def allDigits (cs : List Char) : Bool := cs.all (fun c => c.isDigit)

/-- Decimal value of a digit string. -/
def digitsVal (cs : List Char) : Nat := cs.foldl (fun a c => a * 10 + (c.toNat - 48)) 0

/-- One dotted-quad octet per `ipaddress._parse_octet`: one to three
decimal digits, value at most 255, no leading zero. -/
def parseOctet (s : String) : Option Nat :=
  let cs := s.toList
  if cs ≠ [] ∧ cs.length ≤ 3 ∧ allDigits cs = true ∧ (cs.length = 1 ∨ cs.head? ≠ some '0') then
    if digitsVal cs ≤ 255 then some (digitsVal cs) else none
  else none

/-- `ipaddress.ip_address` for IPv4 dotted-quad strings, as a 32-bit value. -/
def ipAddressParse (s : String) : Option Nat :=
  match splitOnChar '.' s with
  | [a, b, c, d] =>
    match parseOctet a, parseOctet b, parseOctet c, parseOctet d with
    | some x, some y, some z, some w => some (((x * 256 + y) * 256 + z) * 256 + w)
    | _, _, _, _ => none
  | _ => none

/-- Decimal prefix length, per `ipaddress._prefix_from_prefix_string`:
digits only, value at most 32. -/
def parsePrefixLen (s : String) : Option Nat :=
  let cs := s.toList
  if cs ≠ [] ∧ allDigits cs = true then
    if digitsVal cs ≤ 32 then some (digitsVal cs) else none
  else none

/-- An IPv4 network: network address (32-bit value) and prefix length. -/
structure IPv4Net where
  addr : Nat
  prefixLen : Nat
  deriving DecidableEq, Repr

/-- `ipaddress.ip_network` (strict, the default): at most one `/`; a bare
address gets prefix length 32; set host bits raise `ValueError` (here:
`none`). -/
def ipNetworkParse (s : String) : Option IPv4Net :=
  match splitOnChar '/' s with
  | [a] => (ipAddressParse a).map (fun ip => ⟨ip, 32⟩)
  | [a, p] =>
    match ipAddressParse a, parsePrefixLen p with
    | some ip, some pl => if ip % 2 ^ (32 - pl) = 0 then some ⟨ip, pl⟩ else none
    | _, _ => none
  | _ => none

/-- `ip in network` for an IPv4 address and network: the address's top
`prefixLen` bits equal the network's. -/
def netContains (n : IPv4Net) (ip : Nat) : Bool :=
  decide (ip / 2 ^ (32 - n.prefixLen) = n.addr / 2 ^ (32 - n.prefixLen))

/-- `get_allowed_network` (src/main.py lines 73-78): read `ALLOWED_NETWORK`
with default `"0.0.0.0/1"` when the variable is absent; a `ValueError`
from `ip_network` yields `None`. -/
def get_allowed_network (envVar : Option String) : Option IPv4Net :=
  ipNetworkParse (envVar.getD "0.0.0.0/1")

/-- `is_allowed_ip` (src/main.py lines 157-162): an unparsable caller
address yields `False` (the `ValueError` is caught); otherwise allowed iff
a network is configured and contains the address. -/
def is_allowed_ip (net : Option IPv4Net) (remoteIp : String) : Bool :=
  match ipAddressParse remoteIp with
  | none => false
  | some ip =>
    match net with
    | none => false
    | some n => netContains n ip

/-! ## Endpoint bodies -/

/-- Number of `/` characters in a string (Python `image.count('/')`). -/
def slashCount (s : String) : Nat := (s.toList.filter (fun c => c = '/')).length

/-- The image-name rewrite of the `/pull-image` handler (src/main.py lines
348-351): at most one path separator and no `docker.io/` start gets the
`docker.io/` namespace added; everything else passes through. -/
def normalize_image (image : String) : String :=
  if slashCount image ≤ 1 ∧ pyStartsWith image "docker.io/" = false then
    "docker.io/" ++ image
  else image

/-- Python `int(str)`: surrounding whitespace and an optional sign around
decimal digits (digit-group underscores are not modelled; no claim uses
them). -/
def pyIntOfString (s : String) : Option Int :=
  match (pyStrip s).toList with
  | '+' :: ds => if ds ≠ [] ∧ allDigits ds = true then some (digitsVal ds) else none
  | '-' :: ds => if ds ≠ [] ∧ allDigits ds = true then some (-(digitsVal ds : Int)) else none
  | ds => if ds ≠ [] ∧ allDigits ds = true then some (digitsVal ds) else none

/-- Python `int(x)` on a JSON value: ints pass through, bools coerce,
numeric strings parse (`ValueError` otherwise), and `None`/lists/dicts
raise `TypeError`. -/
def pyIntOfJValue : JValue → Except PyErr Int
  | .num n => .ok n
  | .bool b => .ok (if b then 1 else 0)
  | .str s =>
    match pyIntOfString s with
    | some n => .ok n
    | none => .error .valueErr
  | .null => .error .typeErr
  | .arr _ => .error .typeErr
  | .obj _ => .error .typeErr

/-- Response of the `/pull-image` handler body (src/main.py lines
335-359). `internalError` stands for an uncaught exception in the handler
(the framework's 500), e.g. a request body that is not valid JSON or an
`image` value without string methods. -/
inductive PullResp where
  | forbidden
  | badRequest (detail : String)
  | accepted
  | internalError
  deriving DecidableEq, Repr

/-- `pull_image` handler body: the response paired with the image name
handed to the background `run_pull` task (`none` when no task is
scheduled). The authorization check runs before the body is read. -/
def pull_image (net : Option IPv4Net) (remoteIp : String) (body : Except Unit JValue) :
    PullResp × Option String :=
  if is_allowed_ip net remoteIp then
    match body with
    | .error _ => (.internalError, none)
    | .ok data =>
      match jGet data "image" with
      | .error _ => (.internalError, none)
      | .ok imageOpt =>
        match imageOpt with
        | none => (.badRequest "No image provided", none)
        | some v =>
          if jTruthy v then
            match v with
            | .str s =>
              let image := normalize_image s
              if image = "" ∨ pyStrip image = "" then (.badRequest "Invalid image name", none)
              else (.accepted, some image)
            | _ => (.internalError, none)
          else (.badRequest "No image provided", none)
  else (.forbidden, none)

/-- Response of the `/prune-images` handler body (src/main.py lines
361-392). -/
inductive PruneResp where
  | forbidden
  | accepted (days : Int)
  deriving DecidableEq, Repr

/-- The `days` value that the `/prune-images` handler ends up with
(src/main.py lines 372-384). The handler's inner
`except (TypeError, ValueError)` raises `HTTPException(400)`, but that
raise sits inside the outer `try ... except Exception`, which catches the
`HTTPException` as well and resets `days` to 14 — so every failure path
(missing/invalid JSON body, falsy body, non-dict body, non-convertible
`days`) falls through to the default and the handler proceeds. -/
def pruneDaysOf (body : Except Unit JValue) : Int :=
  match body with
  | .error _ => 14
  | .ok data =>
    if jTruthy data then
      match jGet data "days" with
      | .error _ => 14
      | .ok none => 14
      | .ok (some v) =>
        match pyIntOfJValue v with
        | .ok n => n
        | .error _ => 14
    else 14

/-- `prune_images` handler body: the response paired with the `days`
threshold handed to the background `run_prune` task (`none` when no task
is scheduled). -/
def prune_images (net : Option IPv4Net) (remoteIp : String) (body : Except Unit JValue) :
    PruneResp × Option Int :=
  if is_allowed_ip net remoteIp then
    (.accepted (pruneDaysOf body), some (pruneDaysOf body))
  else (.forbidden, none)

/-! ## The `image_lock` transition system

Both `run_pull` (src/main.py line 130) and `run_prune` (line 274) wrap
their whole body in `with image_lock:` over the single module-level
`threading.Lock` (line 37). A task therefore has the shape
acquire → body → release, where the `with` statement releases the lock on
the normal exit and on the exceptional exit of the body alike. Any number
of concurrently dispatched HTTP-triggered or scheduler-triggered
invocations are modelled as tasks `0, …, n-1`; interleavings are arbitrary
`Step` sequences. -/

/-- Where one invocation of `run_pull`/`run_prune` stands: queued on the
lock, inside the body, finished normally, or finished with the body
raising. -/
inductive TaskPhase where
  | waiting
  | crit
  | done
  | failed
  deriving DecidableEq, Repr

/-- Global state: number of tasks, phase of each, and which task holds
`image_lock` (`none` when free). -/
structure LockSys where
  n : Nat
  tasks : Nat → TaskPhase
  owner : Option Nat

/-- All `n` invocations queued, lock free. -/
def initLockSys (n : Nat) : LockSys := ⟨n, fun _ => .waiting, none⟩

/-- One interleaving step: a queued task acquires the free lock and enters
its body; a task in its body leaves it, normally or by raising — the
`with` statement releases the lock either way. -/
inductive LockStep : LockSys → LockSys → Prop
  | enter (s : LockSys) (i : Nat) (hn : i < s.n) (hw : s.tasks i = .waiting)
      (hfree : s.owner = none) :
      LockStep s ⟨s.n, Function.update s.tasks i .crit, some i⟩
  | exitOk (s : LockSys) (i : Nat) (hc : s.tasks i = .crit) :
      LockStep s ⟨s.n, Function.update s.tasks i .done, none⟩
  | exitRaise (s : LockSys) (i : Nat) (hc : s.tasks i = .crit) :
      LockStep s ⟨s.n, Function.update s.tasks i .failed, none⟩

/-- Reachability by any finite interleaving. -/
inductive LockReach (s : LockSys) : LockSys → Prop
  | refl : LockReach s s
  | tail {t u : LockSys} : LockReach s t → LockStep t u → LockReach s u

/-- The lock invariant: the owner is exactly the task inside its body. -/
def LockInv (s : LockSys) : Prop :=
  (∀ i, s.tasks i = .crit → s.owner = some i)
    ∧ (∀ i, s.owner = some i → s.tasks i = .crit ∧ i < s.n)

/-! ## Derived views of an environment, and concrete environments -/

/-- The `ps -a -q` behaviour an environment supplies. -/
def psOutcome (env : HostEnv) : SubprocBehavior :=
  env.subproc (crictlPath env ++ ["ps", "-a", "-q"])

/-- The `inspect <cid>` behaviour an environment supplies. -/
def inspectOutcome (env : HostEnv) (cid : String) : SubprocBehavior :=
  env.subproc (crictlPath env ++ ["inspect", cid])

/-- The `inspecti <img>` behaviour an environment supplies. -/
def inspectiOutcome (env : HostEnv) (img : String) : SubprocBehavior :=
  env.subproc (crictlPath env ++ ["inspecti", img])

/-- The container ids `get_used_images` will iterate over. -/
def usedContainerIds (env : HostEnv) : List String :=
  if (psOutcome env).result.returncode = 0 then pyStripSplitlines (psOutcome env).result.stdout
  else []

/-- Well-formedness of one container's inspection: the launch succeeds,
and if the inspect exits 0 its stdout is JSON that `json.loads` accepts
and whose `status` field supports the `.get` chain. -/
def inspectScanOk (env : HostEnv) (cid : String) : Bool :=
  !(inspectOutcome env cid).launchFails
    && (decide ((inspectOutcome env cid).result.returncode ≠ 0)
      || match env.jsonLoads (inspectOutcome env cid).result.stdout with
         | .error _ => false
         | .ok d =>
           match extractImageRef d with
           | .ok _ => true
           | .error _ => false)

/-- Well-formedness of the container scan: the `ps` launch succeeds and
every listed container satisfies `inspectScanOk`. Under this condition
the scan cannot raise. -/
def usedScanOk (env : HostEnv) : Bool :=
  !(psOutcome env).launchFails && (usedContainerIds env).all (inspectScanOk env)

/-- A completed subprocess with the given exit code and stdout. -/
def okRun (rc : Int) (out : String) : SubprocBehavior :=
  ⟨false, "", 0, ⟨rc, out, ""⟩⟩

/-- A subprocess whose launch fails (missing binary / chroot failure). -/
def failLaunch (msg : String) : SubprocBehavior :=
  ⟨true, msg, 0, ⟨0, "", ""⟩⟩

/-- Base environment: not in a container, no Nix store (so the binary is
`/usr/bin/crictl`). -/
def mkEnv (free : Nat) (now : Int) (sub : List String → SubprocBehavior)
    (jl : String → Except Unit JValue) : HostEnv :=
  { inContainer := false
    hostNixExists := false
    nixBinExists := false
    freeBytes := free
    nowUs := now
    subproc := sub
    jsonLoads := jl }

/-- One container `c1` whose `inspect` exits 0 but prints something
`json.loads` rejects. -/
def badJsonEnv : HostEnv :=
  mkEnv 0 0
    (fun cmd =>
      if cmd = ["/usr/bin/crictl", "ps", "-a", "-q"] then okRun 0 "c1"
      else if cmd = ["/usr/bin/crictl", "inspect", "c1"] then okRun 0 "BADJSON"
      else okRun 0 "")
    (fun _ => .error ())

/-- Containers `c1` (inspect exits 1) and `c2` (inspect exits 0 with a
well-formed payload naming image reference `img1`). -/
def usedWitEnv : HostEnv :=
  mkEnv 0 0
    (fun cmd =>
      if cmd = ["/usr/bin/crictl", "ps", "-a", "-q"] then okRun 0 "c1\nc2"
      else if cmd = ["/usr/bin/crictl", "inspect", "c1"] then okRun 1 ""
      else if cmd = ["/usr/bin/crictl", "inspect", "c2"] then okRun 0 "GOODJSON"
      else okRun 0 "")
    (fun s =>
      if s = "GOODJSON" then
        .ok (.obj (.cons "status" (.obj (.cons "imageRef" (.str "img1") .nil)) .nil))
      else .error ())

/-- `inspecti` exits 0 with valid JSON whose `info` field is the number 5
(not a dict), so the `.get` chain raises `AttributeError`. -/
def nondictEnv : HostEnv :=
  mkEnv 0 0 (fun _ => okRun 0 "NONDICT")
    (fun _ => .ok (.obj (.cons "info" (.num 5) .nil)))

/-- `inspecti` exits 0 with a structurally fine payload whose `created`
string is unparsable. -/
def unparsableCreatedEnv : HostEnv :=
  mkEnv 0 0 (fun _ => okRun 0 "CREATEDJSON")
    (fun _ =>
      .ok (.obj (.cons "info"
        (.obj (.cons "imageSpec"
          (.obj (.cons "created" (.str "garbage") .nil)) .nil)) .nil)))

/-- Prune pass over no containers and the single image `imgA`, created
2024-01-02T03:04:05Z, observed from a `now` far past the 14-day cutoff;
`rmi` succeeds. -/
def pruneWitEnv : HostEnv :=
  mkEnv 0 1900000000000000
    (fun cmd =>
      if cmd = ["/usr/bin/crictl", "ps", "-a", "-q"] then okRun 0 ""
      else if cmd = ["/usr/bin/crictl", "images", "-q"] then okRun 0 "imgA"
      else if cmd = ["/usr/bin/crictl", "inspecti", "imgA"] then okRun 0 "CREATEDJSON"
      else okRun 0 "")
    (fun s =>
      if s = "CREATEDJSON" then
        .ok (.obj (.cons "info"
          (.obj (.cons "imageSpec"
            (.obj (.cons "created" (.str "2024-01-02T03:04:05Z") .nil)) .nil)) .nil))
      else .error ())

/-- Free space exactly at the 50 GiB floor. -/
def floorEnv : HostEnv :=
  mkEnv (50 * 1024 ^ 3) 0 (fun _ => okRun 0 "") (fun _ => .error ())

/-- Free space strictly above the 50 GiB floor. -/
def aboveFloorEnv : HostEnv :=
  mkEnv (51 * 1024 ^ 3) 0 (fun _ => okRun 0 "") (fun _ => .error ())

/-- Plenty of free space; the pull subprocess runs for 1 000 000 seconds
(far beyond 30 minutes) and then exits 0; `inspecti` exits 1 so the
post-pull creation-time lookup returns `None`. -/
def longPullEnv : HostEnv :=
  mkEnv (100 * 1024 ^ 3) 0
    (fun cmd =>
      if cmd = ["/usr/bin/crictl", "pull", "docker.io/nginx"] then ⟨false, "", 1000000, ⟨0, "", ""⟩⟩
      else okRun 1 "")
    (fun _ => .error ())

/-- Every subprocess launch fails, as when the crictl binary is missing:
the first gateway call of a prune pass raises `RuntimeError`. -/
def launchFailEnv : HostEnv :=
  mkEnv 0 0 (fun _ => failLaunch "ps launch") (fun _ => .error ())

/-- Two queued invocations; invocation 0 has entered its body. -/
def lockWitState : LockSys :=
  ⟨2, Function.update (initLockSys 2).tasks 0 .crit, some 0⟩

/-- Invocation 0's body has raised; the `with` statement released the
lock on the way out. -/
def lockWitState2 : LockSys :=
  ⟨2, Function.update lockWitState.tasks 0 .failed, none⟩

/-! ## Helper lemmas -/

/-- A gateway call whose launch succeeds returns the completed result. -/
theorem run_in_host_of_launchOk (env : HostEnv) (cmd : List String)
    (h : (env.subproc (crictlPath env ++ cmd)).launchFails = false) :
    run_in_host env cmd = .ok (env.subproc (crictlPath env ++ cmd)).result := by
  simp [run_in_host, subprocessRun, h]

/-- Every exception `run_in_host` raises is a `RuntimeError`: the
`except Exception` handler of src/main.py lines 260-262 rewraps whatever
`subprocess.run` raised. -/
theorem run_in_host_error (env : HostEnv) (cmd : List String) (e : PyErr)
    (h : run_in_host env cmd = .error e) : ∃ m, e = .runtimeError m := by
  unfold run_in_host at h
  rcases ho : subprocessRun none (env.subproc (crictlPath env ++ cmd)) with r | _ | m <;>
    rw [ho] at h
  · exact absurd h (by simp)
  · unfold subprocessRun at ho
    split at ho <;> simp_all
  · exact ⟨_, by injection h with h'; exact h'.symm⟩

/-- `jGet` can only raise `AttributeError`. -/
theorem jGet_error (v : JValue) (key : String) (e : PyErr)
    (h : jGet v key = .error e) : e = .attributeError := by
  unfold jGet at h
  split at h <;> simp_all

/-- `jGetD` can only raise `AttributeError`. -/
theorem jGetD_error (v : JValue) (key : String) (dflt : JValue) (e : PyErr)
    (h : jGetD v key dflt = .error e) : e = .attributeError := by
  unfold jGetD at h
  split at h <;> simp_all

/-- The `.get` chain of `get_image_created` can only raise
`AttributeError`. -/
theorem extractCreated_error (d : JValue) (e : PyErr)
    (h : extractCreated d = .error e) : e = .attributeError := by
  unfold extractCreated at h
  split at h
  · rename_i e1 heq
    injection h with h'
    exact h' ▸ jGetD_error _ _ _ _ heq
  · split at h
    · rename_i e2 heq2
      injection h with h'
      exact h' ▸ jGetD_error _ _ _ _ heq2
    · exact jGet_error _ _ _ h

/-- Every exception escaping `get_image_created` is a `RuntimeError` or an
`AttributeError`; in particular never a `TimeoutExpired` or
`FileNotFoundError`. -/
theorem get_image_created_error (env : HostEnv) (img : String) (e : PyErr)
    (h : get_image_created env img = .error e) :
    (∃ m, e = .runtimeError m) ∨ e = .attributeError := by
  unfold get_image_created at h
  split at h
  · rename_i e1 heq
    injection h with h'
    exact Or.inl (h' ▸ run_in_host_error _ _ _ heq)
  · split at h
    · exact absurd h (by simp)
    · split at h
      · exact absurd h (by simp)
      · split at h
        · rename_i e3 heq3
          injection h with h'
          exact Or.inr (h' ▸ extractCreated_error _ _ heq3)
        · exact absurd h (by simp)
        · split at h
          · split at h <;>
              first
              | exact absurd h (by simp)
              | (split at h <;> exact absurd h (by simp))
          · exact absurd h (by simp)

/-! ## Claim theorems -/

/-- C4: the claimed hard 30-minute pull timeout does not exist.
`run_in_host` calls `subprocess.run` without a `timeout` argument, so a
pull subprocess that runs far beyond 30 minutes (here 1 000 000 seconds)
still completes normally, and no execution of `run_pull` can ever reach
the `TimeoutExpired` handler — that handler is dead code. -/
theorem run_pull_never_times_out :
    run_pull longPullEnv "docker.io/nginx"
        = (PullOutcome.success none, [["pull", "docker.io/nginx"], ["inspecti", "docker.io/nginx"]])
      ∧ ∀ (env : HostEnv) (image : String), (run_pull env image).1 ≠ PullOutcome.timedOut := by
  constructor
  · rfl
  · intro env image
    unfold run_pull
    split
    · split
      · split
        · split <;>
            first
            | (simp; done)
            | (rename_i heq
               rcases get_image_created_error _ _ _ heq with ⟨m, hm⟩ | hm <;> simp at hm)
        · simp
      all_goals
        first
        | (simp; done)
        | (rename_i heq
           rcases run_in_host_error _ _ _ heq with ⟨m, hm⟩
           simp at hm)
    · simp

/-- C7 (amended): after acquiring the mutex, `run_pull` invokes the
gateway's pull command iff the measured free space strictly exceeds the
50 GiB floor; at or below the floor it aborts with the logged warning and
issues no gateway command at all. -/
theorem run_pull_disk_guard_amended (env : HostEnv) (image : String) :
    (env.freeBytes ≤ 50 * 1024 ^ 3 → run_pull env image = (PullOutcome.insufficientStorage, []))
      ∧ (50 * 1024 ^ 3 < env.freeBytes →
          (run_pull env image).2.head? = some ["pull", image]) := by
  constructor
  · intro hle
    unfold run_pull
    rw [if_neg (by omega)]
  · intro hlt
    unfold run_pull
    rw [if_pos hlt]
    split
    · split
      · split <;> simp
      · simp
    · simp
    · simp
    · simp

/-- C7 counterexample: with free space exactly at the 50 GiB floor the
free space is not below the floor, yet the pull is aborted and the
gateway's pull command is never invoked — refuting the claim's
"otherwise the pull command is invoked". -/
theorem run_pull_aborts_at_exact_floor :
    ¬ floorEnv.freeBytes < 50 * 1024 ^ 3
      ∧ run_pull floorEnv "nginx" = (PullOutcome.insufficientStorage, []) :=
  ⟨by decide, rfl⟩

/-- C7 witness: the amended guard evaluated at the floor and just above. -/
theorem run_pull_disk_guard_amended_witness :
    run_pull floorEnv "nginx" = (PullOutcome.insufficientStorage, [])
      ∧ (run_pull aboveFloorEnv "nginx").2.head? = some ["pull", "nginx"] :=
  ⟨(run_pull_disk_guard_amended floorEnv "nginx").1 (by decide),
    (run_pull_disk_guard_amended aboveFloorEnv "nginx").2 (by decide)⟩

/-- C6 counterexample: `"myregistry.example.com/nginx"` contains exactly
one path separator, so the handler rewrites it to
`"docker.io/myregistry.example.com/nginx"` — it does not pass through
unchanged as the claim states. -/
theorem normalize_image_rewrites_single_slash_registry :
    normalize_image "myregistry.example.com/nginx" = "docker.io/myregistry.example.com/nginx"
      ∧ normalize_image "myregistry.example.com/nginx" ≠ "myregistry.example.com/nginx" := by
  constructor
  · rfl
  · decide

/-- C6 (amended): a name with at least two path separators, or one already
starting with `docker.io/`, passes through unchanged; every other name —
including `"nginx"` and the single-separator
`"myregistry.example.com/nginx"` — is rewritten with the `docker.io/`
namespace. -/
theorem normalize_image_amended :
    (∀ s : String, 2 ≤ slashCount s → normalize_image s = s)
      ∧ (∀ s : String, pyStartsWith s "docker.io/" = true → normalize_image s = s)
      ∧ normalize_image "nginx" = "docker.io/nginx"
      ∧ slashCount "myregistry.example.com/nginx" = 1
      ∧ normalize_image "myregistry.example.com/nginx"
          = "docker.io/myregistry.example.com/nginx" := by
  refine ⟨?_, ?_, rfl, by decide, rfl⟩
  · intro s h
    unfold normalize_image
    rw [if_neg]
    rintro ⟨h1, _⟩
    omega
  · intro s h
    unfold normalize_image
    rw [if_neg]
    rintro ⟨_, h2⟩
    rw [h] at h2
    cases h2

/-- C6 witness: the amended rule evaluated at a two-separator name and an
already-prefixed name. -/
theorem normalize_image_amended_witness :
    normalize_image "quay.io/coreos/etcd" = "quay.io/coreos/etcd"
      ∧ normalize_image "docker.io/library/nginx" = "docker.io/library/nginx" :=
  ⟨normalize_image_amended.1 "quay.io/coreos/etcd" (by decide),
    normalize_image_amended.2.1 "docker.io/library/nginx" (by decide)⟩

/-- C2: evaluating the `/prune-images` handler at an allowed caller with
body `{"days": "abc"}`. The `int("abc")` failure raises
`HTTPException(400)`, but that raise is swallowed by the handler's outer
`except Exception`, which resets `days` to 14 — so the handler answers
`200 {"status":"ok","days":14}` and schedules a background prune with the
default threshold, instead of the claimed 400 with no scheduled work. -/
theorem prune_images_nonint_days_swallowed :
    prune_images (some ⟨0, 1⟩) "10.0.0.1" (.ok (.obj (.cons "days" (.str "abc") .nil)))
      = (PruneResp.accepted 14, some 14) := rfl

/-- With no configured network, every caller is rejected. -/
theorem is_allowed_ip_none (ip : String) : is_allowed_ip none ip = false := by
  unfold is_allowed_ip
  split <;> rfl

/-- C1 counterexample: with the environment variable absent,
`get_allowed_network` falls back to the default `"0.0.0.0/1"` — it does
not fail closed. The caller `1.2.3.4` is allowed, and both endpoints
accept its requests and schedule background work instead of answering
403. -/
theorem allowed_network_absent_env_not_deny_all :
    get_allowed_network none = some ⟨0, 1⟩
      ∧ is_allowed_ip (get_allowed_network none) "1.2.3.4" = true
      ∧ prune_images (get_allowed_network none) "1.2.3.4" (.ok (.obj .nil))
          = (PruneResp.accepted 14, some 14)
      ∧ (pull_image (get_allowed_network none) "1.2.3.4"
          (.ok (.obj (.cons "image" (.str "nginx") .nil)))).1 = PullResp.accepted :=
  ⟨rfl, rfl, rfl, rfl⟩

/-- C1 (amended): an unparsable configured CIDR string fails closed —
every request to either endpoint is rejected with 403 and no background
work is scheduled; but an absent environment variable instead yields the
default network `0.0.0.0/1`, which allows exactly the callers whose
32-bit address value is below `2^31` (the colon-free hypothesis keeps the
IPv4 model faithful: every textual IPv6 form contains a colon). -/
theorem allowed_network_fail_closed_amended :
    (∀ s : String, s.toList.contains ':' = false → ipNetworkParse s = none →
        ∀ (ip : String) (body : Except Unit JValue),
          prune_images (get_allowed_network (some s)) ip body = (PruneResp.forbidden, none)
            ∧ pull_image (get_allowed_network (some s)) ip body = (PullResp.forbidden, none))
      ∧ get_allowed_network none = some ⟨0, 1⟩
      ∧ (∀ (ip : String) (a : Nat), ipAddressParse ip = some a →
          is_allowed_ip (get_allowed_network none) ip = decide (a < 2 ^ 31)) := by
  refine ⟨?_, rfl, ?_⟩
  · intro s _ hparse ip body
    have hnet : get_allowed_network (some s) = none := by
      simp [get_allowed_network, hparse]
    rw [hnet]
    constructor
    · simp [prune_images, is_allowed_ip_none]
    · simp [pull_image, is_allowed_ip_none]
  · intro ip a hp
    have : get_allowed_network none = some ⟨0, 1⟩ := rfl
    rw [this]
    simp only [is_allowed_ip, hp]
    simp only [netContains]
    norm_num
    exact Nat.div_eq_zero_iff (by norm_num)

/-- C1 witness: the amended statement at the unparsable string
`"not a cidr"` and, for the absent-variable branch, at caller
`10.0.0.1`. -/
theorem allowed_network_fail_closed_amended_witness :
    prune_images (get_allowed_network (some "not a cidr")) "10.0.0.1" (.ok (.obj .nil))
        = (PruneResp.forbidden, none)
      ∧ is_allowed_ip (get_allowed_network none) "10.0.0.1" = true := by
  constructor
  · exact (allowed_network_fail_closed_amended.1 "not a cidr" (by decide) (by decide)
      "10.0.0.1" (.ok (.obj .nil))).1
  · have h := allowed_network_fail_closed_amended.2.2 "10.0.0.1" 167772161 (by decide)
    rw [h]
    decide

/-- The lock invariant holds initially. -/
theorem lockInv_init (n : Nat) : LockInv (initLockSys n) := by
  constructor
  · intro i h
    simp [initLockSys] at h
  · intro i h
    simp [initLockSys] at h

/-- Every step preserves the lock invariant. -/
theorem lockInv_step {s t : LockSys} (hs : LockInv s) (hst : LockStep s t) : LockInv t := by
  cases hst with
  | enter i hn hw hfree =>
    constructor
    · intro j hj
      dsimp only at hj ⊢
      by_cases hij : j = i
      · subst hij; rfl
      · rw [Function.update_noteq hij] at hj
        have hcontra := hs.1 j hj
        rw [hfree] at hcontra
        cases hcontra
    · intro j hj
      dsimp only at hj ⊢
      injection hj with hj
      subst hj
      refine ⟨?_, hn⟩
      rw [Function.update_same]
  | exitOk i hc =>
    constructor
    · intro j hj
      dsimp only at hj ⊢
      by_cases hij : j = i
      · subst hij
        rw [Function.update_same] at hj
        cases hj
      · rw [Function.update_noteq hij] at hj
        have h1 := hs.1 j hj
        have h2 := hs.1 i hc
        rw [h1] at h2
        injection h2 with h2
        exact absurd h2 hij
    · intro j hj
      dsimp only at hj
      cases hj
  | exitRaise i hc =>
    constructor
    · intro j hj
      dsimp only at hj ⊢
      by_cases hij : j = i
      · subst hij
        rw [Function.update_same] at hj
        cases hj
      · rw [Function.update_noteq hij] at hj
        have h1 := hs.1 j hj
        have h2 := hs.1 i hc
        rw [h1] at h2
        injection h2 with h2
        exact absurd h2 hij
    · intro j hj
      dsimp only at hj
      cases hj

/-- The lock invariant holds in every reachable state. -/
theorem lockInv_reach {s t : LockSys} (h : LockReach s t) (hs : LockInv s) : LockInv t := by
  induction h with
  | refl => exact hs
  | tail _ hstep ih => exact lockInv_step ih hstep

/-- Steps never change the number of tasks. -/
theorem lockReach_n {s t : LockSys} (h : LockReach s t) : t.n = s.n := by
  induction h with
  | refl => rfl
  | tail _ hstep ih => cases hstep <;> simpa using ih

/-- C9: at most one Pull-or-Prune body executes at a time. In every state
reachable by any interleaving of any number of concurrently dispatched
`run_pull`/`run_prune` invocations — all serialized through the single
process-wide `image_lock` — two invocations inside their bodies are the
same invocation. -/
theorem lifecycle_mutual_exclusion (n : Nat) (s : LockSys)
    (h : LockReach (initLockSys n) s) (i j : Nat)
    (hi : s.tasks i = TaskPhase.crit) (hj : s.tasks j = TaskPhase.crit) : i = j := by
  have inv := lockInv_reach h (lockInv_init n)
  have h1 := inv.1 i hi
  have h2 := inv.1 j hj
  rw [h1] at h2
  exact Option.some.inj h2

/-- C9 witness: the mutual-exclusion theorem applied in the reachable
state where invocation 0 has entered its body. -/
theorem lifecycle_mutual_exclusion_witness :
    lockWitState.tasks 0 = TaskPhase.crit ∧ (0 : Nat) = 0 :=
  ⟨rfl,
    lifecycle_mutual_exclusion 2 lockWitState
      (LockReach.tail LockReach.refl
        (LockStep.enter (initLockSys 2) 0 (by decide) rfl rfl))
      0 0 rfl rfl⟩

/-- C10: the mutex is released on every exit path. In any reachable state
in which no invocation is inside its body — in particular after a body
raised (`exitRaise`, the exceptional arm of the `with image_lock`
statement) — the lock is free and any still-waiting invocation can
proceed; and a prune body genuinely can raise: with the crictl launch
failing, `run_prune` propagates the gateway's `RuntimeError`. -/
theorem lock_released_on_all_exits (n : Nat) (s : LockSys)
    (h : LockReach (initLockSys n) s)
    (hnc : ∀ i, s.tasks i ≠ TaskPhase.crit) :
    s.owner = none
      ∧ (∀ j, j < n → s.tasks j = TaskPhase.waiting → ∃ t, LockStep s t)
      ∧ run_prune launchFailEnv 14
          = .error (.runtimeError "Command execution failed: ps launch") := by
  have inv := lockInv_reach h (lockInv_init n)
  have howner : s.owner = none := by
    rcases ho : s.owner with _ | i
    · rfl
    · exact absurd (inv.2 i ho).1 (hnc i)
  refine ⟨howner, ?_, rfl⟩
  intro j hj hw
  have hn : s.n = n := by
    have := lockReach_n h
    simpa [initLockSys] using this
  exact ⟨_, LockStep.enter s j (by rw [hn]; exact hj) hw howner⟩

/-- C10 witness: after invocation 0's body raised, the lock is free and
the waiting invocation 1 can enter. -/
theorem lock_released_on_all_exits_witness :
    lockWitState2.owner = none ∧ ∃ t, LockStep lockWitState2 t := by
  have hreach : LockReach (initLockSys 2) lockWitState2 :=
    LockReach.tail
      (LockReach.tail LockReach.refl
        (LockStep.enter (initLockSys 2) 0 (by decide) rfl rfl))
      (LockStep.exitRaise lockWitState 0 rfl)
  have hnc : ∀ i, lockWitState2.tasks i ≠ TaskPhase.crit := by
    intro i hc
    by_cases hi : i = 0
    · subst hi
      exact absurd hc (by decide)
    · have hw : lockWitState2.tasks i = TaskPhase.waiting := by
        show Function.update
          (Function.update (fun _ => TaskPhase.waiting) 0 TaskPhase.crit) 0 TaskPhase.failed i
            = TaskPhase.waiting
        rw [Function.update_noteq hi, Function.update_noteq hi]
      rw [hw] at hc
      cases hc
  have h := lock_released_on_all_exits 2 lockWitState2 hreach hnc
  exact ⟨h.1, h.2.1 1 (by norm_num) rfl⟩

/-- Case analysis of one successful `run_prune` loop iteration. -/
theorem pruneOne_ok (env : HostEnv) (cutoffUs : Int) (used : List JValue) (img : String)
    (e : PruneEntry) (h : pruneOne env cutoffUs used img = .ok e) :
    e.img = img
      ∧ ((get_image_created env img = .ok none
            ∧ e.act = .keptUnknownCreated ∧ e.rmiCmds = [])
        ∨ (∃ c, get_image_created env img = .ok (some c)
            ∧ env.nowUs - epochUs c < cutoffUs ∧ e.act = .keptTooNew ∧ e.rmiCmds = [])
        ∨ (∃ c, get_image_created env img = .ok (some c)
            ∧ ¬ env.nowUs - epochUs c < cutoffUs ∧ JValue.str img ∈ used
            ∧ e.act = .keptInUse ∧ e.rmiCmds = [])
        ∨ (∃ c, get_image_created env img = .ok (some c)
            ∧ ¬ env.nowUs - epochUs c < cutoffUs ∧ JValue.str img ∉ used
            ∧ (e.act = .removed ∨ e.act = .removeFailed)
            ∧ e.rmiCmds = [["rmi", img]])) := by
  unfold pruneOne at h
  split at h
  · exact absurd h (by simp)
  · rename_i heq
    injection h with h'
    subst h'
    exact ⟨rfl, Or.inl ⟨heq, rfl, rfl⟩⟩
  · rename_i c heq
    split at h
    · rename_i hage
      injection h with h'
      subst h'
      exact ⟨rfl, Or.inr (Or.inl ⟨c, heq, hage, rfl, rfl⟩)⟩
    · rename_i hage
      split at h
      · rename_i hmem
        injection h with h'
        subst h'
        exact ⟨rfl, Or.inr (Or.inr (Or.inl ⟨c, heq, hage, hmem, rfl, rfl⟩))⟩
      · rename_i hmem
        split at h
        · exact absurd h (by simp)
        · rename_i r heq2
          injection h with h'
          subst h'
          refine ⟨rfl, Or.inr (Or.inr (Or.inr ⟨c, heq, hage, hmem, ?_, rfl⟩))⟩
          by_cases hrc : r.returncode = 0
          · rw [if_pos hrc]
            exact Or.inl rfl
          · rw [if_neg hrc]
            exact Or.inr rfl

/-- Every entry a successful prune loop returns comes from a successful
iteration on a listed image. -/
theorem pruneAll_mem (env : HostEnv) (cutoffUs : Int) (used : List JValue) :
    ∀ (l : List String) (res : List PruneEntry),
      pruneAll env cutoffUs used l = .ok res →
      ∀ e ∈ res, ∃ img ∈ l, pruneOne env cutoffUs used img = .ok e := by
  intro l
  induction l with
  | nil =>
    intro res h e he
    unfold pruneAll at h
    injection h with h'
    subst h'
    cases he
  | cons img rest ih =>
    intro res h e he
    unfold pruneAll at h
    split at h
    · exact absurd h (by simp)
    · rename_i entry heq1
      split at h
      · exact absurd h (by simp)
      · rename_i entries heq2
        injection h with h'
        subst h'
        rcases List.mem_cons.mp he with hee | hee
        · subst hee
          exact ⟨img, List.mem_cons_self img rest, heq1⟩
        · rcases ih entries heq2 e hee with ⟨img', h1, h2⟩
          exact ⟨img', List.mem_cons_of_mem img h1, h2⟩

/-- C3: the eviction policy of a prune pass. Whenever `run_prune`
completes, there is a used-image set such that every processed image was
kept because its creation time is unknown; or kept because its age —
`now` captured once, minus its creation time — is strictly below
`days · 86400` seconds; or kept (age at or above the threshold) because
its id is in the used set; or, with age at or above the threshold and id
not in the used set, the `rmi` remove-image command was invoked for it. -/
theorem run_prune_eviction_policy (env : HostEnv) (days : Int) (res : List PruneEntry)
    (h : run_prune env days = .ok res) :
    ∃ used, get_used_images env = .ok used ∧
      ∀ e ∈ res,
        (get_image_created env e.img = .ok none
            ∧ e.act = .keptUnknownCreated ∧ e.rmiCmds = [])
        ∨ (∃ c, get_image_created env e.img = .ok (some c)
            ∧ env.nowUs - epochUs c < days * 24 * 60 * 60 * 1000000
            ∧ e.act = .keptTooNew ∧ e.rmiCmds = [])
        ∨ (∃ c, get_image_created env e.img = .ok (some c)
            ∧ ¬ env.nowUs - epochUs c < days * 24 * 60 * 60 * 1000000
            ∧ JValue.str e.img ∈ used ∧ e.act = .keptInUse ∧ e.rmiCmds = [])
        ∨ (∃ c, get_image_created env e.img = .ok (some c)
            ∧ ¬ env.nowUs - epochUs c < days * 24 * 60 * 60 * 1000000
            ∧ JValue.str e.img ∉ used
            ∧ (e.act = .removed ∨ e.act = .removeFailed)
            ∧ e.rmiCmds = [["rmi", e.img]]) := by
  unfold run_prune at h
  split at h
  · exact absurd h (by simp)
  · rename_i used hused
    split at h
    · exact absurd h (by simp)
    · rename_i allImgs hall
      refine ⟨used, hused, ?_⟩
      intro e he
      rcases pruneAll_mem env _ used allImgs res h e he with ⟨img, _, hone⟩
      rcases pruneOne_ok env _ used img e hone with ⟨himg, hdisj⟩
      subst himg
      exact hdisj

/-- C3 witness: the policy theorem at a concrete environment whose single
image `imgA` is old and unused, hence removed. -/
theorem run_prune_eviction_policy_witness :
    ∃ used, get_used_images pruneWitEnv = .ok used ∧
      ∀ e ∈ ([⟨"imgA", PruneAction.removed, [["rmi", "imgA"]]⟩] : List PruneEntry),
        (get_image_created pruneWitEnv e.img = .ok none
            ∧ e.act = .keptUnknownCreated ∧ e.rmiCmds = [])
        ∨ (∃ c, get_image_created pruneWitEnv e.img = .ok (some c)
            ∧ pruneWitEnv.nowUs - epochUs c < 14 * 24 * 60 * 60 * 1000000
            ∧ e.act = .keptTooNew ∧ e.rmiCmds = [])
        ∨ (∃ c, get_image_created pruneWitEnv e.img = .ok (some c)
            ∧ ¬ pruneWitEnv.nowUs - epochUs c < 14 * 24 * 60 * 60 * 1000000
            ∧ JValue.str e.img ∈ used ∧ e.act = .keptInUse ∧ e.rmiCmds = [])
        ∨ (∃ c, get_image_created pruneWitEnv e.img = .ok (some c)
            ∧ ¬ pruneWitEnv.nowUs - epochUs c < 14 * 24 * 60 * 60 * 1000000
            ∧ JValue.str e.img ∉ used
            ∧ (e.act = .removed ∨ e.act = .removeFailed)
            ∧ e.rmiCmds = [["rmi", e.img]]) :=
  run_prune_eviction_policy pruneWitEnv 14
    [⟨"imgA", PruneAction.removed, [["rmi", "imgA"]]⟩] (by decide)

/-- If every container in the list satisfies `inspectScanOk`, the scan
loop completes without raising, whatever the accumulator. -/
theorem collectUsed_total (env : HostEnv) :
    ∀ l : List String, (∀ cid ∈ l, inspectScanOk env cid = true) →
      ∀ used, ∃ u, collectUsed env l used = .ok u := by
  intro l
  induction l with
  | nil =>
    intro _ used
    exact ⟨used, rfl⟩
  | cons cid rest ih =>
    intro hl used
    have hcid := hl cid (List.mem_cons_self cid rest)
    have hrest : ∀ c ∈ rest, inspectScanOk env c = true :=
      fun c hc => hl c (List.mem_cons_of_mem cid hc)
    rw [inspectScanOk, Bool.and_eq_true] at hcid
    obtain ⟨hlf, hbody⟩ := hcid
    rw [Bool.not_eq_true'] at hlf
    unfold inspectOutcome at hlf hbody
    have hres := run_in_host_of_launchOk env ["inspect", cid] hlf
    simp only [collectUsed, hres]
    split
    · exact ih hrest used
    · rename_i hrc
      rw [Bool.or_eq_true, decide_eq_true_eq] at hbody
      rcases hbody with hbody | hbody
      · exact absurd hbody hrc
      · rcases hjson : env.jsonLoads
            (env.subproc (crictlPath env ++ ["inspect", cid])).result.stdout with e | d <;>
          simp only [hjson] at hbody ⊢
        · cases hbody
        · simp only [liftJson]
          rcases hx : extractImageRef d with e | r <;> simp only [hx] at hbody ⊢
          · cases hbody
          · rcases r with _ | ref
            · exact ih hrest used
            · dsimp only
              split
              · exact ih hrest (pySetAdd used ref)
              · exact ih hrest used

/-- C5 (amended): in the used-image scan, a container whose `inspect`
exits non-zero is skipped and the enumeration continues, and so is one
whose payload lacks the image-reference field; and whenever every
successful inspect's stdout is well-formed JSON the whole scan returns a
set without raising. (A malformed stdout, by contrast, raises — see the
counterexample.) -/
theorem get_used_images_skip_amended :
    (∀ (env : HostEnv) (used : List JValue) (cid : String) (rest : List String),
        (inspectOutcome env cid).launchFails = false →
        (inspectOutcome env cid).result.returncode ≠ 0 →
        collectUsed env (cid :: rest) used = collectUsed env rest used)
      ∧ (∀ (env : HostEnv) (used : List JValue) (cid : String) (rest : List String)
            (d : JValue),
          (inspectOutcome env cid).launchFails = false →
          (inspectOutcome env cid).result.returncode = 0 →
          env.jsonLoads (inspectOutcome env cid).result.stdout = .ok d →
          extractImageRef d = .ok none →
          collectUsed env (cid :: rest) used = collectUsed env rest used)
      ∧ (∀ env : HostEnv, usedScanOk env = true →
          ∃ u, get_used_images env = .ok u) := by
  refine ⟨?_, ?_, ?_⟩
  · intro env used cid rest hlf hrc
    have hres := run_in_host_of_launchOk env ["inspect", cid] hlf
    simp only [collectUsed, hres]
    rw [if_pos]
    exact hrc
  · intro env used cid rest d hlf hrc hjson hx
    unfold inspectOutcome at hrc hjson
    have hres := run_in_host_of_launchOk env ["inspect", cid] hlf
    simp only [collectUsed, hres]
    rw [if_neg (not_not_intro hrc)]
    simp only [hjson, liftJson, hx]
  · intro env hok
    rw [usedScanOk, Bool.and_eq_true] at hok
    obtain ⟨hps, hall⟩ := hok
    rw [Bool.not_eq_true'] at hps
    have hres := run_in_host_of_launchOk env ["ps", "-a", "-q"] hps
    simp only [get_used_images, hres]
    split
    · exact ⟨[], rfl⟩
    · rename_i hrc
      split
      · exact ⟨[], rfl⟩
      · apply collectUsed_total
        intro cid hcid
        refine List.all_eq_true.mp hall cid ?_
        unfold usedContainerIds psOutcome
        rw [if_pos (not_not.mp hrc)]
        exact hcid

/-- C5 counterexample: one container's `inspect` exits 0 with stdout that
`json.loads` rejects; the `json.loads` call in `get_used_images` sits
outside any `try`, so the enumeration raises `JSONDecodeError` instead of
skipping the container and returning a partial set. -/
theorem get_used_images_raises_on_malformed_json :
    get_used_images badJsonEnv = .error PyErr.jsonDecodeError := rfl

/-- C5 witness: the skip rule at container `c1` (inspect exits 1), and a
completed scan over `c1`, `c2`. -/
theorem get_used_images_skip_amended_witness :
    collectUsed usedWitEnv ["c1", "c2"] [] = collectUsed usedWitEnv ["c2"] []
      ∧ ∃ u, get_used_images usedWitEnv = .ok u :=
  ⟨get_used_images_skip_amended.1 usedWitEnv [] "c1" ["c2"] (by decide) (by decide),
    get_used_images_skip_amended.2.2 usedWitEnv (by decide)⟩

/-- C8 (amended): `"2024-01-02T03:04:05Z"` parses to 2024-01-02 03:04:05
UTC and `"2024-01-02T03:04:05.1Z"` to the same instant with the fraction
normalized to 100000 microseconds; and `get_image_created` returns absent
without raising for a non-zero inspect exit, for non-JSON stdout, for a
missing `created` value (when the intermediate fields are objects), for a
falsy or non-string `created` value, and for an unparsable `created`
string. (A non-object intermediate, by contrast, raises
`AttributeError` — see the counterexample.) -/
theorem timestamp_parsing_amended :
    parse_rfc3339 "2024-01-02T03:04:05Z" = .ok ⟨2024, 1, 2, 3, 4, 5, 0, true⟩
      ∧ parse_rfc3339 "2024-01-02T03:04:05.1Z" = .ok ⟨2024, 1, 2, 3, 4, 5, 100000, true⟩
      ∧ (∀ (env : HostEnv) (img : String),
          (inspectiOutcome env img).launchFails = false →
            ((inspectiOutcome env img).result.returncode ≠ 0 →
                get_image_created env img = .ok none)
            ∧ (env.jsonLoads (inspectiOutcome env img).result.stdout = .error () →
                get_image_created env img = .ok none)
            ∧ (∀ d : JValue,
                env.jsonLoads (inspectiOutcome env img).result.stdout = .ok d →
                (inspectiOutcome env img).result.returncode = 0 →
                (extractCreated d = .ok none → get_image_created env img = .ok none)
                ∧ (∀ v, extractCreated d = .ok (some v) → jTruthy v = false →
                    get_image_created env img = .ok none)
                ∧ (∀ s, extractCreated d = .ok (some (JValue.str s)) →
                    parse_rfc3339 s = .error () → get_image_created env img = .ok none)
                ∧ (∀ v, extractCreated d = .ok (some v) → (∀ s, v ≠ JValue.str s) →
                    get_image_created env img = .ok none))) := by
  refine ⟨rfl, rfl, ?_⟩
  intro env img hlf
  have hres := run_in_host_of_launchOk env ["inspecti", img] hlf
  refine ⟨?_, ?_, ?_⟩
  · intro hrc
    unfold inspectiOutcome at hrc
    simp only [get_image_created, hres]
    rw [if_pos hrc]
  · intro hjson
    unfold inspectiOutcome at hjson
    simp only [get_image_created, hres]
    split
    · rfl
    · simp only [hjson]
  · intro d hjson hrc
    unfold inspectiOutcome at hjson hrc
    refine ⟨?_, ?_, ?_, ?_⟩
    · intro hx
      simp only [get_image_created, hres]
      rw [if_neg (not_not_intro hrc)]
      simp only [hjson, hx]
    · intro v hx htr
      simp only [get_image_created, hres]
      rw [if_neg (not_not_intro hrc)]
      simp only [hjson, hx, htr]
      rfl
    · intro s hx hparse
      simp only [get_image_created, hres]
      rw [if_neg (not_not_intro hrc)]
      simp only [hjson, hx]
      split
      · simp [hparse]
      · rfl
    · intro v hx hne
      simp only [get_image_created, hres]
      rw [if_neg (not_not_intro hrc)]
      simp only [hjson, hx]
      split
      · rcases v with _ | b | n | s | a | o
        · rfl
        · rfl
        · rfl
        · exact absurd rfl (hne s)
        · rfl
        · rfl
      · rfl

/-- C8 counterexample: `inspecti` exits 0 with the valid JSON
`{"info": 5}`; `data.get("info", {})` yields `5`, whose `.get` raises
`AttributeError` outside every `try` — so for this structurally missing
creation string `get_image_created` raises into its caller instead of
returning absent. -/
theorem get_image_created_raises_on_nondict_info :
    get_image_created nondictEnv "imgX" = .error PyErr.attributeError := rfl

/-- C8 witness: the unparsable-string branch of the amended statement at
a concrete payload whose `created` field is `"garbage"`. -/
theorem timestamp_parsing_amended_witness :
    get_image_created unparsableCreatedEnv "img" = .ok none
      ∧ parse_rfc3339 "garbage" = .error () := by
  have h := timestamp_parsing_amended.2.2 unparsableCreatedEnv "img" (by decide)
  have h2 := h.2.2
    (JValue.obj (.cons "info"
      (.obj (.cons "imageSpec"
        (.obj (.cons "created" (.str "garbage") .nil)) .nil)) .nil))
    (by decide) (by decide)
  exact ⟨h2.2.2.1 "garbage" (by decide) (by decide), by decide⟩

end ImagePuller
